import Mathlib

/-!
Formal models of the playback-control logic of the youtube-frontend video
players, embedded shallowly in Lean: the state carried by each player
component is a structure, each event handler is a pure function from the
incoming event and the current state to the next state (and the list of
commands it sends to the media engine or callbacks it delivers to the host
application), and the cancellable timers of the source become explicit
deadline fields fired by drain/flush steps. Positions and durations are
rationals (milliseconds or seconds, matching each source file); timestamps
are naturals (milliseconds).
-/

/-- A command sent to the underlying media engine.  `seek` carries seconds
(react-native-video), `setPositionMs` carries milliseconds (expo-av
`setPositionAsync`). -/
inductive EngineCmd where
  | seek (seconds : ℚ)
  | setPositionMs (ms : ℚ)
  | play
  | pause
  deriving DecidableEq

/-- An outbound callback delivered to the host application. -/
inductive HostCallback where
  | progressMilestone (position duration : ℚ)
  deriving DecidableEq

/-- The `PlayerState` record of `src/types/index.ts`, as held by
`AdvancedVideoPlayer` and `NativeVideoPlayer` (times in milliseconds). -/
structure AdvPlayerState where
  isPlaying : Bool
  currentTime : ℚ
  duration : ℚ
  volume : ℚ
  isMuted : Bool
  deriving DecidableEq

/-- `AdvancedVideoPlayer.seekTo` (AdvancedVideoPlayer.tsx lines 209-213):
clamp the requested millisecond position to `[0, duration]`, commit the
clamped value to the engine (converted to seconds), and record it as the
controller position. -/
def advSeekTo (position : ℚ) (s : AdvPlayerState) : AdvPlayerState × List EngineCmd :=
  let seekTime := max 0 (min position s.duration)
  ({ s with currentTime := seekTime }, [EngineCmd.seek (seekTime / 1000)])

/-- `NativeVideoPlayer.seekTo` (NativeVideoPlayer.tsx lines 97-100): convert
the requested millisecond position to seconds and commit it to the engine
unchanged; no clamping and no state update. -/
def nativeSeekTo (position : ℚ) : List EngineCmd :=
  [EngineCmd.seek (position / 1000)]

/-- `EnhancedVideoPlayer.seekTo` (EnhancedVideoPlayer.tsx lines 148-154):
commit the requested millisecond position to the engine via
`setPositionAsync` unchanged; no clamping. -/
def enhSeekTo (position : ℚ) : List EngineCmd :=
  [EngineCmd.setPositionMs position]

/-- Folding `AdvancedVideoPlayer.seekTo` over a list of requested positions:
every call commits to the engine immediately (there is no debounce timer in
this component), so the command lists concatenate. -/
def advRunSeeks : List ℚ → AdvPlayerState → AdvPlayerState × List EngineCmd
  | [], s => (s, [])
  | v :: rest, s =>
      let step := advSeekTo v s
      let run := advRunSeeks rest step.1
      (run.1, step.2 ++ run.2)

/-- State of `ProVideoPlayer` (src/unnamed/part_002, lines 233-1009).  The
three `useRef` timeout handles of the source become explicit optional
deadlines paired with the value their callback will use. -/
structure ProState where
  isPlaying : Bool
  duration : ℚ
  currentTime : ℚ
  seekTime : ℚ
  isSeeking : Bool
  isLoading : Bool
  error : Option String
  selectedQualityIndex : Nat
  showQualityMenu : Bool
  networkType : String
  pendingSeek : Option (Nat × ℚ)
  pendingProgress : Option (Nat × ℚ)
  pendingQualitySeek : Option (Nat × ℚ)
  deriving DecidableEq

/-- `ProVideoPlayer.seekTo` (part_002 lines 448-463): clamp the requested
time (seconds) to `[0, duration]`, record it as the scrub preview value,
cancel any pending debounced seek and schedule a new one 150 ms out carrying
the clamped value. -/
def proSeekTo (now : Nat) (time : ℚ) (s : ProState) : ProState :=
  let clampedTime := max 0 (min time s.duration)
  { s with seekTime := clampedTime, pendingSeek := some (now + 150, clampedTime) }

/-- Expiry of the debounced seek timer (the body of the `setTimeout` in
part_002 lines 458-462): commit the pending value to the engine, adopt it as
the committed position, and clear the scrubbing flag. -/
def proSeekFire (s : ProState) : ProState × List EngineCmd :=
  match s.pendingSeek with
  | none => (s, [])
  | some (_, v) =>
      ({ s with currentTime := v, isSeeking := false, pendingSeek := none },
       [EngineCmd.seek v])

/-- Fire the pending debounced seek if its deadline has passed at `now`. -/
def proDrainSeek (now : Nat) (s : ProState) : ProState × List EngineCmd :=
  match s.pendingSeek with
  | some (d, _) => if d ≤ now then proSeekFire s else (s, [])
  | none => (s, [])

/-- Deliver a list of timed seek requests to `ProVideoPlayer.seekTo`, firing
the debounce timer whenever its deadline has passed before the next request,
and letting any remaining pending seek fire at the end (quiescence). -/
def proRunSeeks : List (Nat × ℚ) → ProState → ProState × List EngineCmd
  | [], s => proSeekFire s
  | (t, v) :: rest, s =>
      let drained := proDrainSeek t s
      let requested := proSeekTo t v drained.1
      let run := proRunSeeks rest requested
      (run.1, drained.2 ++ run.2)

/-- Requests are ordered in time and each arrives strictly within 150 ms of
its predecessor. -/
def withinWindow (a b : Nat × ℚ) : Prop :=
  a.1 ≤ b.1 ∧ b.1 < a.1 + 150

instance : DecidableRel withinWindow := fun a b =>
  inferInstanceAs (Decidable (a.1 ≤ b.1 ∧ b.1 < a.1 + 150))

/-- The value of the last request of `a :: l`. -/
def lastValue (a : Nat × ℚ) : List (Nat × ℚ) → ℚ
  | [] => a.2
  | b :: l => lastValue b l


/-- `ProVideoPlayer.onProgress` event payload (react-native-video
`OnProgressData`; seconds). -/
structure ProgressData where
  currentTime : ℚ
  deriving DecidableEq

/-- `ProVideoPlayer.onProgress` (part_002 lines 410-422): while the scrubbing
flag `isSeeking` is set the event is ignored entirely; otherwise the pending
throttle timer is cancelled and a position update carrying the reported time
is scheduled 100 ms out. -/
def proOnProgress (now : Nat) (data : ProgressData) (s : ProState) : ProState :=
  if s.isSeeking then s
  else { s with pendingProgress := some (now + 100, data.currentTime) }

/-- Expiry of the progress throttle timer (part_002 lines 417-420): adopt the
throttled position and deliver the outbound progress callback with the
current duration, with no positivity guard on the duration. -/
def proProgressFire (s : ProState) : ProState × List HostCallback :=
  match s.pendingProgress with
  | none => (s, [])
  | some (_, t) =>
      ({ s with currentTime := t, pendingProgress := none },
       [HostCallback.progressMilestone t s.duration])

/-- `AdvancedVideoPlayer.onProgress` (AdvancedVideoPlayer.tsx lines 180-185):
unconditionally overwrite the controller position with the engine-reported
time (seconds, stored as milliseconds); there is no scrubbing gate. -/
def advOnProgress (data : ProgressData) (s : AdvPlayerState) : AdvPlayerState :=
  { s with currentTime := data.currentTime * 1000 }

/-- Component-level state of `AdvancedVideoPlayer` wrapping its player
state: the controls-overlay flag and the auto-hide timer handle. -/
structure AdvCompState where
  player : AdvPlayerState
  showControls : Bool
  controlsDeadline : Option Nat
  deriving DecidableEq

/-- The slider `onSlidingStart` handler of `AdvancedVideoPlayer` (lines
581-586): a scrub begins; the controls are shown and the auto-hide timer is
cleared.  Nothing is recorded that would gate `onProgress`. -/
def advOnSlidingStart (s : AdvCompState) : AdvCompState :=
  { s with showControls := true, controlsDeadline := none }

/-- `AdvancedVideoPlayer.togglePlayPause` (lines 200-207): flip the playing
flag, show the controls and clear the auto-hide timer.  The engine is driven
declaratively through the `paused` prop; this toggle is the only play/pause
entry point of the component and it always changes state. -/
def advTogglePlayPause (s : AdvCompState) : AdvCompState :=
  { s with player := { s.player with isPlaying := !s.player.isPlaying },
           showControls := true, controlsDeadline := none }

/-- State of `EnhancedVideoPlayer` (expo-av based; times in milliseconds),
including the buffering-watchdog timer of `onPlaybackStatusUpdate`.  The
watchdog deadline is paired with the recovery position captured when it was
armed. -/
structure EnhState where
  isPlaying : Bool
  currentTime : ℚ
  duration : ℚ
  isBuffering : Bool
  isLoading : Bool
  error : Option String
  bufferingDeadline : Option (Nat × ℚ)
  deriving DecidableEq

/-- A loaded expo-av playback status. -/
structure AVStatus where
  isPlaying : Bool
  positionMillis : ℚ
  durationMillis : ℚ
  isBuffering : Bool
  deriving DecidableEq

/-- `EnhancedVideoPlayer.onPlaybackStatusUpdate` on a loaded status
(EnhancedVideoPlayer.tsx lines 67-107): when the status reports buffering,
cancel and re-arm the 10 s watchdog, capturing the position currently known
to the component as the recovery target; on buffer end, disarm it.  The
status fields are then applied to the player state. -/
def enhOnStatus (now : Nat) (st : AVStatus) (s : EnhState) : EnhState :=
  let s1 :=
    if st.isBuffering then
      { s with isBuffering := true,
               bufferingDeadline := some (now + 10000, s.currentTime) }
    else
      { s with isBuffering := false, bufferingDeadline := none }
  { s1 with isLoading := false,
            isPlaying := st.isPlaying,
            currentTime := st.positionMillis,
            duration := st.durationMillis,
            error := none }

/-- Expiry of the buffering watchdog (EnhancedVideoPlayer.tsx lines 81-88):
clear the buffering flag and, when the captured position is positive, issue
a single recovery seek to it.  No error is recorded and no retry budget is
tracked. -/
def enhWatchdogFire (s : EnhState) : EnhState × List EngineCmd :=
  match s.bufferingDeadline with
  | none => (s, [])
  | some (_, p) =>
      ({ s with isBuffering := false, bufferingDeadline := none },
       if 0 < p then [EngineCmd.setPositionMs p] else [])

/-- `EnhancedVideoPlayer.togglePlayPause` (lines 119-129): dispatch on the
current playing flag, issuing `pauseAsync` when playing and `playAsync` when
paused; local state is not modified here (it is updated later by status
callbacks). -/
def enhTogglePlayPause (s : EnhState) : List EngineCmd :=
  if s.isPlaying then [EngineCmd.pause] else [EngineCmd.play]

/-- The slice of `AdvancedVideoPlayer` state read by the emergency
force-show effect (lines 126-138). -/
structure CtrlState where
  showControls : Bool
  isPlaying : Bool
  fallbackDeadline : Option Nat
  deriving DecidableEq

/-- Re-run of the emergency fallback effect (AdvancedVideoPlayer.tsx lines
126-138) after `showControls` or `isPlaying` changed at time `now`: the
cleanup clears the pending 1 s timer and the body re-arms it exactly when
the controls are hidden while paused. -/
def ctrlEffect (now : Nat) (s : CtrlState) : CtrlState :=
  if !s.showControls && !s.isPlaying then
    { s with fallbackDeadline := some (now + 1000) }
  else
    { s with fallbackDeadline := none }

/-- Expiry of the 1 s emergency timer (line 128-130): force the controls
visible; the effect then re-runs because `showControls` changed. -/
def ctrlFire (now : Nat) (s : CtrlState) : CtrlState :=
  ctrlEffect now { s with showControls := true }

/-- Fire the emergency timer if its deadline has passed at `now`. -/
def ctrlDrain (now : Nat) (s : CtrlState) : CtrlState :=
  match s.fallbackDeadline with
  | some d => if d ≤ now then ctrlFire now s else s
  | none => s

/-- User-level events observed by the effect: the explicit single-tap
visibility toggle, and play/pause changes. -/
inductive CtrlEv where
  | userToggle
  | setPlaying (b : Bool)
  deriving DecidableEq

/-- Deliver one timed event: first fire an already-expired emergency timer,
then apply the event and re-run the effect. -/
def ctrlStep (now : Nat) (e : CtrlEv) (s : CtrlState) : CtrlState :=
  let s1 := ctrlDrain now s
  match e with
  | CtrlEv.userToggle => ctrlEffect now { s1 with showControls := !s1.showControls }
  | CtrlEv.setPlaying b => ctrlEffect now { s1 with isPlaying := b }

/-- Run a timed event trace through the controls-visibility machine. -/
def ctrlRun (evs : List (Nat × CtrlEv)) (s : CtrlState) : CtrlState :=
  evs.foldl (fun st te => ctrlStep te.1 te.2 st) s

/-- Invariant of the effect: the emergency timer is armed exactly while the
controls are hidden and playback is paused. -/
def ctrlInv (s : CtrlState) : Prop :=
  s.fallbackDeadline ≠ none ↔ (s.showControls = false ∧ s.isPlaying = false)

/-- Actions emitted by `AdvancedVideoPlayer.handleTap` and its timer. -/
inductive TapAction where
  | skipBackward
  | togglePlayPause
  | skipForward
  | showControlsNow
  | toggleControls
  deriving DecidableEq

/-- Tap bookkeeping of `AdvancedVideoPlayer` (lines 45-47): the `lastTap`
timestamp (0 encodes none, as in the source) and the pending single-tap
timer deadline. -/
structure TapState where
  lastTap : Nat
  pendingToggle : Option Nat
  deriving DecidableEq

/-- Double-tap zone mapping (AdvancedVideoPlayer.tsx lines 335-342): left
third of the screen skips backward, right third skips forward, middle third
toggles play/pause. -/
def tapZone (x w : ℚ) : TapAction :=
  if x < w / 3 then TapAction.skipBackward
  else if w * 2 / 3 < x then TapAction.skipForward
  else TapAction.togglePlayPause

/-- `AdvancedVideoPlayer.handleTap` (lines 324-354) at time `now`, location
`x` on a screen of width `w`: any pending single-tap timer is cancelled
first; a tap within 250 ms of the previous one is consumed as a transport
command and resets `lastTap`; otherwise the controls are shown immediately
and the deferred visibility toggle is scheduled 250 ms out. -/
def handleTap (now : Nat) (x w : ℚ) (s : TapState) : TapState × List TapAction :=
  if s.lastTap ≠ 0 ∧ now - s.lastTap < 250 then
    ({ lastTap := 0, pendingToggle := none }, [tapZone x w])
  else
    ({ lastTap := now, pendingToggle := some (now + 250) }, [TapAction.showControlsNow])

/-- Expiry of the single-tap timer (lines 347-351): toggle the controls. -/
def tapTimerFire (s : TapState) : TapState × List TapAction :=
  match s.pendingToggle with
  | none => (s, [])
  | some _ => ({ s with pendingToggle := none }, [TapAction.toggleControls])

/-- Fire the single-tap timer if its deadline has passed at `now`. -/
def tapDrain (now : Nat) (s : TapState) : TapState × List TapAction :=
  match s.pendingToggle with
  | some d => if d ≤ now then tapTimerFire s else (s, [])
  | none => (s, [])

/-- Deliver a sequence of timed taps, firing the single-tap timer whenever
its deadline passes before the next tap, and letting any still-pending
timer fire at the end. -/
def runTaps : List (Nat × ℚ) → ℚ → TapState → TapState × List TapAction
  | [], _, s => tapTimerFire s
  | (t, x) :: rest, w, s =>
      let drained := tapDrain t s
      let tapped := handleTap t x w drained.1
      let run := runTaps rest w tapped.1
      (run.1, drained.2 ++ tapped.2 ++ run.2)

/-- `ProVideoPlayer.changeQuality` (part_002 lines 500-513): capture the
current position (the scrub preview if a scrub is in flight, else the
committed position), switch the selected source index, close the quality
menu, enter loading, and schedule an engine seek to the captured position on
a fixed 500 ms timer.  The playing flag is neither read nor written. -/
def proChangeQuality (now : Nat) (index : Nat) (s : ProState) : ProState :=
  let currentPosition := if s.isSeeking then s.seekTime else s.currentTime
  { s with selectedQualityIndex := index,
           showQualityMenu := false,
           isLoading := true,
           pendingQualitySeek := some (now + 500, currentPosition) }

/-- Expiry of the 500 ms quality-switch timer (part_002 lines 508-512):
issue the engine seek to the captured position. -/
def proQualitySeekFire (s : ProState) : ProState × List EngineCmd :=
  match s.pendingQualitySeek with
  | none => (s, [])
  | some (_, p) => ({ s with pendingQualitySeek := none }, [EngineCmd.seek p])

/-- `ProVideoPlayer.onLoad` (part_002 lines 402-407): clear loading and
error, record the duration.  No engine command is issued here. -/
def proOnLoad (durationSec : ℚ) (s : ProState) : ProState × List EngineCmd :=
  ({ s with isLoading := false, error := none, duration := durationSec }, [])

/-- The `maxBitRate` prop of `AdvancedVideoPlayer` (line 441): no ceiling on
wifi, 1000000 bps otherwise. -/
def advMaxBitRate (networkStatus : String) : Option Nat :=
  if networkStatus = "wifi" then none else some 1000000

/-- The `maxBitRate` prop of `ProVideoPlayer` (part_002 line 608): no
ceiling on wifi, 2000000 bps otherwise. -/
def proMaxBitRate (networkType : String) : Option Nat :=
  if networkType = "wifi" then none else some 2000000

/-- A NetInfo connectivity-change event. -/
structure NetInfoEvent where
  isConnected : Bool
  connType : Option String
  deriving DecidableEq

/-- The slice of `AdvancedVideoPlayer` state touched by its NetInfo
listener (lines 78-89). -/
structure AdvNetState where
  networkStatus : String
  error : Option String
  player : AdvPlayerState
  deriving DecidableEq

/-- The NetInfo listener of `AdvancedVideoPlayer` (lines 78-89): record the
connectivity class (or offline plus an error banner).  It issues no engine
command and does not touch the playback state. -/
def advNetListener (ev : NetInfoEvent) (s : AdvNetState) : AdvNetState × List EngineCmd :=
  if ev.isConnected then
    ({ s with networkStatus := ev.connType.getD "unknown" }, [])
  else
    ({ s with networkStatus := "offline", error := some "No internet connection" }, [])

/-- The progress-milestone effect of `AdvancedVideoPlayer` (lines 163-167):
the host callback fires only when one is installed and the known duration is
positive. -/
def advProgressEffect (hasCallback : Bool) (s : AdvPlayerState) : List HostCallback :=
  if hasCallback ∧ 0 < s.duration then
    [HostCallback.progressMilestone s.currentTime s.duration]
  else []

/-- The progress-milestone effect of `NativeVideoPlayer` (lines 52-56),
textually identical to the one above. -/
def nativeProgressEffect (hasCallback : Bool) (s : AdvPlayerState) : List HostCallback :=
  if hasCallback ∧ 0 < s.duration then
    [HostCallback.progressMilestone s.currentTime s.duration]
  else []

/-- The progress-milestone effect of `EnhancedVideoPlayer` (lines 53-57),
over its own state shape. -/
def enhProgressEffect (hasCallback : Bool) (s : EnhState) : List HostCallback :=
  if hasCallback ∧ 0 < s.duration then
    [HostCallback.progressMilestone s.currentTime s.duration]
  else []

/-- Claim C1 (amended): in `AdvancedVideoPlayer`, for any state with
duration `d ≥ 0` and any requested target `t`, the position committed by
`seekTo` is clamped to `[0, d]`: the engine receives the clamped value (in
seconds), `t < 0` commits `0`, `t > d` commits `d`, and an in-range `t`
commits `t` itself. -/
theorem advSeekTo_clamps (s : AdvPlayerState) (t : ℚ) (hd : 0 ≤ s.duration) :
    0 ≤ (advSeekTo t s).1.currentTime ∧
    (advSeekTo t s).1.currentTime ≤ s.duration ∧
    (advSeekTo t s).2 = [EngineCmd.seek ((advSeekTo t s).1.currentTime / 1000)] ∧
    (t < 0 → (advSeekTo t s).1.currentTime = 0) ∧
    (s.duration < t → (advSeekTo t s).1.currentTime = s.duration) ∧
    (0 ≤ t → t ≤ s.duration → (advSeekTo t s).1.currentTime = t) := by
  refine ⟨le_max_left 0 _, max_le hd (min_le_right t s.duration), rfl, ?_, ?_, ?_⟩
  · intro ht
    exact max_eq_left (le_of_lt (lt_of_le_of_lt (min_le_left t s.duration) ht))
  · intro ht
    show max 0 (min t s.duration) = s.duration
    rw [min_eq_right (le_of_lt ht)]
    exact max_eq_right hd
  · intro ht1 ht2
    show max 0 (min t s.duration) = t
    rw [min_eq_left ht2]
    exact max_eq_right ht1

/-- Witness for `advSeekTo_clamps` at a concrete state (duration 100000 ms)
and the out-of-range target -5 ms. -/
theorem advSeekTo_clamps_witness :
    0 ≤ (⟨false, 0, 100000, 1, false⟩ : AdvPlayerState).duration ∧
    (advSeekTo (-5) ⟨false, 0, 100000, 1, false⟩).1.currentTime = 0 := by
  refine ⟨by norm_num, ?_⟩
  exact (advSeekTo_clamps ⟨false, 0, 100000, 1, false⟩ (-5) (by norm_num)).2.2.2.1
    (by norm_num)

/-- Claim C1 counterexample: `NativeVideoPlayer.seekTo` at target -2000 ms
commits -2 s to the engine, which is below 0, and `EnhancedVideoPlayer.seekTo`
at target 15000 ms in a state with duration 10000 ms commits 15000 ms, which
exceeds the duration: neither operation clamps the committed position. -/
theorem seekTo_clamp_counterexample :
    nativeSeekTo (-2000) = [EngineCmd.seek (-2)] ∧ ¬ (0 ≤ (-2 : ℚ)) ∧
    enhSeekTo 15000 = [EngineCmd.setPositionMs 15000] ∧ ¬ ((15000 : ℚ) ≤ 10000) := by
  refine ⟨?_, by norm_num, rfl, by norm_num⟩
  show [EngineCmd.seek ((-2000 : ℚ) / 1000)] = [EngineCmd.seek (-2)]
  norm_num

/-- Helper for claim C2: once a first request has been issued (a debounced
seek is pending), every further request arriving within the 150 ms window
cancels and replaces it, so the whole run commits exactly the final clamped
value, once. -/
theorem proRunSeeks_coalesce_aux (rest : List (Nat × ℚ)) :
    ∀ (t : Nat) (v : ℚ) (s : ProState),
      List.Chain' withinWindow ((t, v) :: rest) →
      (proRunSeeks rest (proSeekTo t v s)).2 =
        [EngineCmd.seek (max 0 (min (lastValue (t, v) rest) s.duration))] := by
  induction rest with
  | nil =>
      intro t v s _
      simp [proRunSeeks, proSeekFire, proSeekTo, lastValue]
  | cons b tl ih =>
      intro t v s hc
      obtain ⟨t2, v2⟩ := b
      rw [List.chain'_cons] at hc
      obtain ⟨hb, hc2⟩ := hc
      have hnofire : ¬ (t + 150 ≤ t2) := by
        obtain ⟨hb1, hb2⟩ := hb
        omega
      simp only [proRunSeeks, proDrainSeek, proSeekTo, hnofire, if_false, List.nil_append]
      have h2 := ih t2 v2
        { s with seekTime := max 0 (min v s.duration),
                 pendingSeek := some (t + 150, max 0 (min v s.duration)) } hc2
      simp only [proSeekTo] at h2
      simpa [lastValue] using h2

/-- Claim C2 (amended): in `ProVideoPlayer`, a nonempty run of seek requests
in which each request arrives within 150 ms of its predecessor produces
exactly one committed engine seek, whose value is the final requested value
(clamped to the duration); every earlier pending request is cancelled and
replaced.  (`AdvancedVideoPlayer.seekTo`, also cited by the claim, has no
debounce: see the counterexample.) -/
theorem proSeekTo_coalesces (t : Nat) (v : ℚ) (reqs : List (Nat × ℚ)) (s : ProState)
    (hp : s.pendingSeek = none)
    (hc : List.Chain' withinWindow ((t, v) :: reqs)) :
    (proRunSeeks ((t, v) :: reqs) s).2 =
      [EngineCmd.seek (max 0 (min (lastValue (t, v) reqs) s.duration))] := by
  simp only [proRunSeeks, proDrainSeek, hp, List.nil_append]
  exact proRunSeeks_coalesce_aux reqs t v s hc

/-- Witness for `proSeekTo_coalesces`: the requests 45, 50, 52 issued 100 ms
apart against a 100 s video commit exactly one engine seek, to 52. -/
theorem proSeekTo_coalesces_witness :
    ({ isPlaying := true, duration := 100, currentTime := 40, seekTime := 40,
       isSeeking := true, isLoading := false, error := none,
       selectedQualityIndex := 0, showQualityMenu := false,
       networkType := "wifi", pendingSeek := none, pendingProgress := none,
       pendingQualitySeek := none } : ProState).pendingSeek = none ∧
    (proRunSeeks [(1000, 45), (1100, 50), (1200, 52)]
      { isPlaying := true, duration := 100, currentTime := 40, seekTime := 40,
        isSeeking := true, isLoading := false, error := none,
        selectedQualityIndex := 0, showQualityMenu := false,
        networkType := "wifi", pendingSeek := none, pendingProgress := none,
        pendingQualitySeek := none }).2 = [EngineCmd.seek 52] := by
  refine ⟨rfl, ?_⟩
  have hchain : List.Chain' withinWindow [((1000 : Nat), (45 : ℚ)), (1100, 50), (1200, 52)] := by
    rw [List.chain'_cons, List.chain'_cons]
    refine ⟨⟨by norm_num, by norm_num⟩, ⟨by norm_num, by norm_num⟩, List.chain'_singleton _⟩
  have h := proSeekTo_coalesces 1000 45 [(1100, 50), (1200, 52)]
    { isPlaying := true, duration := 100, currentTime := 40, seekTime := 40,
      isSeeking := true, isLoading := false, error := none,
      selectedQualityIndex := 0, showQualityMenu := false,
      networkType := "wifi", pendingSeek := none, pendingProgress := none,
      pendingQualitySeek := none } rfl hchain
  rw [h]
  norm_num [lastValue]

/-- Claim C2 counterexample: `AdvancedVideoPlayer.seekTo` commits every
request to the engine immediately, so the rapid sequence 45000, 50000,
52000 ms issues three engine seeks, not exactly one. -/
theorem advSeekTo_no_debounce_counterexample :
    (advRunSeeks [45000, 50000, 52000] ⟨false, 0, 100000, 1, false⟩).2 =
      [EngineCmd.seek 45, EngineCmd.seek 50, EngineCmd.seek 52] ∧
    ([EngineCmd.seek 45, EngineCmd.seek 50, EngineCmd.seek 52] : List EngineCmd).length ≠ 1 := by
  constructor
  · show (advRunSeeks [45000, 50000, 52000] ⟨false, 0, 100000, 1, false⟩).2 = _
    norm_num [advRunSeeks, advSeekTo]
  · decide

/-- Claim C3 (amended): in `EnhancedVideoPlayer`, a buffering report while
the last known position `P` is positive arms the 10 s watchdog capturing
`P`, and its expiry issues exactly one recovery seek to `P`, records no
error and disarms the timer.  Persistent buffering re-arms the watchdog for
another identical recovery; there is no retry limit and no transition to an
Errored "playback stalled" state (see the counterexample). -/
theorem enhWatchdog_single_recovery (now : Nat) (st : AVStatus) (s : EnhState)
    (hb : st.isBuffering = true) (hp : 0 < s.currentTime) :
    (enhOnStatus now st s).bufferingDeadline = some (now + 10000, s.currentTime) ∧
    (enhWatchdogFire (enhOnStatus now st s)).2 = [EngineCmd.setPositionMs s.currentTime] ∧
    (enhWatchdogFire (enhOnStatus now st s)).1.error = none ∧
    (enhWatchdogFire (enhOnStatus now st s)).1.bufferingDeadline = none := by
  simp [enhOnStatus, enhWatchdogFire, hb, hp]

/-- Witness for `enhWatchdog_single_recovery`: buffering reported at
position 120000 ms (120 s) yields the single recovery seek to 120000 ms. -/
theorem enhWatchdog_single_recovery_witness :
    (0 : ℚ) < (⟨true, 120000, 600000, false, false, none, none⟩ : EnhState).currentTime ∧
    (enhWatchdogFire (enhOnStatus 0 ⟨true, 120000, 600000, true⟩
      ⟨true, 120000, 600000, false, false, none, none⟩)).2 =
      [EngineCmd.setPositionMs 120000] := by
  refine ⟨by norm_num, ?_⟩
  exact (enhWatchdog_single_recovery 0 ⟨true, 120000, 600000, true⟩
    ⟨true, 120000, 600000, false, false, none, none⟩ rfl (by norm_num)).2.1

/-- Claim C3 counterexample: buffering at position 120000 ms persisting
through the first 10 s watchdog period and then a further full timeout
period ends with no error recorded — the code has no Errored "playback
stalled" state and no retry budget; it simply issues a second recovery
seek. -/
theorem enhWatchdog_no_stall_error_counterexample :
    (enhWatchdogFire (enhOnStatus 10000 ⟨true, 120000, 600000, true⟩
        (enhWatchdogFire (enhOnStatus 0 ⟨true, 120000, 600000, true⟩
          ⟨true, 120000, 600000, false, false, none, none⟩)).1)).1.error = none ∧
    (enhWatchdogFire (enhOnStatus 10000 ⟨true, 120000, 600000, true⟩
        (enhWatchdogFire (enhOnStatus 0 ⟨true, 120000, 600000, true⟩
          ⟨true, 120000, 600000, false, false, none, none⟩)).1)).2 =
      [EngineCmd.setPositionMs 120000] := by
  constructor <;> decide

/-- Claim C4 (amended): in `ProVideoPlayer`, while the scrubbing flag
`isSeeking` is set, an engine progress event leaves the component state
fully unchanged — the position is not overwritten and no throttled update is
scheduled.  (`AdvancedVideoPlayer`, also cited by the claim, has no such
gate: see the counterexample.) -/
theorem proOnProgress_suppressed_during_scrub (now : Nat) (data : ProgressData)
    (s : ProState) (h : s.isSeeking = true) :
    proOnProgress now data s = s := by
  simp [proOnProgress, h]

/-- Witness for `proOnProgress_suppressed_during_scrub`: a progress report
of 99 s delivered mid-scrub leaves the state unchanged. -/
theorem proOnProgress_suppressed_during_scrub_witness :
    (⟨true, 600, 45, 50, true, false, none, 0, false, "wifi", none, none,
        none⟩ : ProState).isSeeking = true ∧
    proOnProgress 0 ⟨99⟩
      (⟨true, 600, 45, 50, true, false, none, 0, false, "wifi", none, none,
        none⟩ : ProState) =
      ⟨true, 600, 45, 50, true, false, none, 0, false, "wifi", none, none, none⟩ := by
  exact ⟨rfl, proOnProgress_suppressed_during_scrub 0 ⟨99⟩ _ rfl⟩

/-- Claim C4 counterexample: in `AdvancedVideoPlayer` a progress event
delivered after scrub start (the slider's `onSlidingStart` records nothing
that gates progress) overwrites the controller position: from 45000 ms
mid-scrub, the engine report 99 s snaps the position to 99000 ms. -/
theorem advOnProgress_overwrites_counterexample :
    (advOnProgress ⟨99⟩
      (advOnSlidingStart ⟨⟨true, 45000, 600000, 1, false⟩, true, none⟩).player).currentTime
      = 99000 ∧
    (advOnSlidingStart ⟨⟨true, 45000, 600000, 1, false⟩, true, none⟩).player.currentTime
      = 45000 ∧
    (99000 : ℚ) ≠ 45000 := by
  refine ⟨?_, rfl, by norm_num⟩
  show (99 : ℚ) * 1000 = 99000
  norm_num

/-- Claim C5 (amended): the players expose only `togglePlayPause`; its
guarded dispatch issues the pause command only from the playing state and
the play command only from the paused state, so a duplicate
play-while-playing or pause-while-paused engine command is never issued.
`AdvancedVideoPlayer`'s toggle always flips the playing flag — there is no
separate idempotent play()/pause() operation (see the counterexample). -/
theorem togglePlayPause_guarded (s : EnhState) (a : AdvCompState) :
    (s.isPlaying = true → enhTogglePlayPause s = [EngineCmd.pause] ∧
      EngineCmd.play ∉ enhTogglePlayPause s) ∧
    (s.isPlaying = false → enhTogglePlayPause s = [EngineCmd.play] ∧
      EngineCmd.pause ∉ enhTogglePlayPause s) ∧
    (advTogglePlayPause a).player.isPlaying = !a.player.isPlaying := by
  refine ⟨fun h => ?_, fun h => ?_, rfl⟩ <;> simp [enhTogglePlayPause, h]

/-- Witness for `togglePlayPause_guarded`: in the playing state the toggle
issues exactly the pause command and never the play command. -/
theorem togglePlayPause_guarded_witness :
    enhTogglePlayPause ⟨true, 0, 0, false, false, none, none⟩ = [EngineCmd.pause] ∧
    EngineCmd.play ∉ enhTogglePlayPause ⟨true, 0, 0, false, false, none, none⟩ := by
  exact (togglePlayPause_guarded ⟨true, 0, 0, false, false, none, none⟩
    ⟨⟨true, 0, 0, 1, false⟩, true, none⟩).1 rfl

/-- Claim C5 counterexample: there is no idempotent play()/pause() entry
point.  Invoking the only play/pause operation (`togglePlayPause`) while
already playing changes the controller state (it pauses) and issues an
engine command, rather than leaving the state unchanged with no command. -/
theorem togglePlayPause_not_noop_counterexample :
    (advTogglePlayPause ⟨⟨true, 0, 0, 1, false⟩, true, none⟩).player.isPlaying = false ∧
    (⟨⟨true, 0, 0, 1, false⟩, true, none⟩ : AdvCompState).player.isPlaying = true ∧
    enhTogglePlayPause ⟨true, 0, 0, false, false, none, none⟩ ≠ [] := by
  refine ⟨rfl, rfl, by decide⟩

/-- Helper for claim C6: after any run of the emergency effect, the 1 s
timer is armed exactly when the controls are hidden and playback paused. -/
theorem ctrlEffect_inv (now : Nat) (s : CtrlState) : ctrlInv (ctrlEffect now s) := by
  simp only [ctrlInv, ctrlEffect]
  split
  · rename_i h
    simp only [Bool.and_eq_true, Bool.not_eq_true'] at h
    simp [h.1, h.2]
  · rename_i h
    simp only [Bool.and_eq_true, Bool.not_eq_true'] at h
    constructor
    · intro hc
      exact absurd rfl hc
    · rintro ⟨h1, h2⟩
      exact absurd ⟨h1, h2⟩ h

/-- Claim C6 (amended): the emergency force-show invariant — the 1 s timer
is armed exactly while the controls are hidden and playback paused — is
preserved by every timed event, hidden-and-paused states therefore always
carry an armed timer, and once its deadline passes the timer fires and
forces the controls visible.  Explicit user toggles do not take precedence
over this behavior (see the counterexample). -/
theorem ctrl_forceShow (s : CtrlState) (now t d : Nat) (e : CtrlEv)
    (hInv : ctrlInv s) :
    ctrlInv (ctrlStep now e s) ∧
    (s.showControls = false → s.isPlaying = false → s.fallbackDeadline ≠ none) ∧
    (s.fallbackDeadline = some d → d ≤ t → (ctrlDrain t s).showControls = true) := by
  refine ⟨?_, ?_, ?_⟩
  · cases e <;> simp only [ctrlStep] <;> exact ctrlEffect_inv _ _
  · intro h1 h2
    exact hInv.mpr ⟨h1, h2⟩
  · intro hsd hle
    simp only [ctrlDrain, hsd, hle, if_true, ctrlFire, ctrlEffect]
    split <;> rfl

/-- Witness for `ctrl_forceShow`: a hidden, paused state armed at deadline
1000 satisfies the invariant, and draining at time 1200 forces the controls
visible. -/
theorem ctrl_forceShow_witness :
    ctrlInv ⟨false, false, some 1000⟩ ∧
    (ctrlDrain 1200 (⟨false, false, some 1000⟩ : CtrlState)).showControls = true := by
  refine ⟨by simp [ctrlInv], ?_⟩
  exact (ctrl_forceShow ⟨false, false, some 1000⟩ 0 1200 1000 CtrlEv.userToggle
    (by simp [ctrlInv])).2.2 rfl (by norm_num)

/-- Claim C6 counterexample: with playback paused, an explicit user toggle
hiding the controls at time 5 does not take precedence over the safety
behavior — with no further user action, the 1 s emergency timer is armed by
that very toggle and fires at time 1005, forcing the controls visible. -/
theorem ctrl_toggle_precedence_counterexample :
    ctrlRun [(0, CtrlEv.setPlaying false), (5, CtrlEv.userToggle)] ⟨true, true, none⟩ =
      ⟨false, false, some 1005⟩ ∧
    (ctrlDrain 1005 (ctrlRun [(0, CtrlEv.setPlaying false), (5, CtrlEv.userToggle)]
      ⟨true, true, none⟩)).showControls = true := by
  constructor <;> decide

/-- Helper for claim C7: a double-tap zone command is never the deferred
visibility toggle. -/
theorem tapZone_ne_toggle (x w : ℚ) : tapZone x w ≠ TapAction.toggleControls := by
  unfold tapZone
  split
  · simp
  · split <;> simp

/-- Claim C7: two taps within the 250 ms disambiguation window are consumed
as exactly one transport command, chosen by the second tap's screen third
(the first tap also shows the controls immediately); the deferred
single-tap visibility toggle is cancelled by the second tap and never fires
for that gesture sequence, even after all timers are allowed to expire. -/
theorem doubleTap_consumes_toggle (t1 t2 : Nat) (x1 x2 w : ℚ)
    (h1 : 0 < t1) (h2 : t1 ≤ t2) (h3 : t2 - t1 < 250) :
    (runTaps [(t1, x1), (t2, x2)] w ⟨0, none⟩).2 =
      [TapAction.showControlsNow, tapZone x2 w] ∧
    TapAction.toggleControls ∉ (runTaps [(t1, x1), (t2, x2)] w ⟨0, none⟩).2 := by
  have ht1 : t1 ≠ 0 := by omega
  have hno : ¬ (t1 + 250 ≤ t2) := by omega
  have hyes : t1 ≠ 0 ∧ t2 - t1 < 250 := ⟨ht1, h3⟩
  have hstep : (runTaps [(t1, x1), (t2, x2)] w ⟨0, none⟩).2 =
      [TapAction.showControlsNow, tapZone x2 w] := by
    simp [runTaps, tapDrain, handleTap, tapTimerFire, hno, hyes, ht1, h3]
  refine ⟨hstep, ?_⟩
  rw [hstep]
  simp [Ne.symm (tapZone_ne_toggle x2 w)]

/-- Witness for `doubleTap_consumes_toggle`: two mid-screen taps at 1000 ms
and 1100 ms on a 300 px wide screen produce the immediate show plus exactly
the play/pause transport command, and no visibility toggle. -/
theorem doubleTap_consumes_toggle_witness :
    ((0 : Nat) < 1000 ∧ (1000 : Nat) ≤ 1100 ∧ (1100 : Nat) - 1000 < 250) ∧
    (runTaps [(1000, 150), (1100, 150)] 300 ⟨0, none⟩).2 =
      [TapAction.showControlsNow, tapZone 150 300] := by
  refine ⟨⟨by norm_num, by norm_num, by norm_num⟩, ?_⟩
  exact (doubleTap_consumes_toggle 1000 1100 150 150 300 (by norm_num) (by norm_num)
    (by norm_num)).1

/-- Claim C8 (amended): `changeQuality` captures the current position (the
scrub preview while a scrub is in flight, else the committed position)
before the source switch, selects the new source, enters loading, leaves
the play/pause state untouched (and therefore preserved), and schedules
exactly one engine seek to exactly the captured position on a fixed 500 ms
timer; the load-completion handler itself issues no command. -/
theorem changeQuality_preserves_position (now idx : Nat) (d : ℚ) (s : ProState) :
    (proChangeQuality now idx s).pendingQualitySeek =
      some (now + 500, if s.isSeeking then s.seekTime else s.currentTime) ∧
    (proChangeQuality now idx s).selectedQualityIndex = idx ∧
    (proChangeQuality now idx s).isLoading = true ∧
    (proChangeQuality now idx s).isPlaying = s.isPlaying ∧
    (proQualitySeekFire (proChangeQuality now idx s)).2 =
      [EngineCmd.seek (if s.isSeeking then s.seekTime else s.currentTime)] ∧
    (proOnLoad d (proChangeQuality now idx s)).2 = [] := by
  refine ⟨rfl, rfl, rfl, rfl, ?_, rfl⟩
  simp [proChangeQuality, proQualitySeekFire]

/-- Claim C8 counterexample: at a concrete state playing at 120 s, the load
completion of the new source issues no command at all — no seek to the
captured position and no play/pause restore happen on load; the seek is
instead scheduled on a fixed 500 ms timer at the moment of the switch. -/
theorem qualitySwitch_onLoad_counterexample :
    (proOnLoad 300 (proChangeQuality 1000 1
      ⟨true, 600, 120, 0, false, false, none, 0, false, "wifi", none, none,
        none⟩)).2 = [] ∧
    (proChangeQuality 1000 1
      ⟨true, 600, 120, 0, false, false, none, 0, false, "wifi", none, none,
        none⟩).pendingQualitySeek = some (1500, 120) := by
  constructor <;> rfl

/-- Claim C9: the connectivity listener only relabels the network class (or
records the offline error banner): it issues no engine command and leaves
the playback state untouched, so a wifi-to-cellular change does not act on
the already-open connection; the bitrate ceiling consulted at load time is
absent exactly when the class is wifi (1 Mbps otherwise in
`AdvancedVideoPlayer`, 2 Mbps in `ProVideoPlayer`). -/
theorem bitrateCeiling_wifi_only (ev : NetInfoEvent) (s : AdvNetState) (net : String) :
    (advNetListener ev s).1.player = s.player ∧
    (advNetListener ev s).2 = [] ∧
    (advMaxBitRate net = none ↔ net = "wifi") ∧
    (proMaxBitRate net = none ↔ net = "wifi") ∧
    (net ≠ "wifi" → advMaxBitRate net = some 1000000 ∧ proMaxBitRate net = some 2000000) := by
  refine ⟨?_, ?_, ?_, ?_, ?_⟩
  · unfold advNetListener
    split <;> rfl
  · unfold advNetListener
    split <;> rfl
  · unfold advMaxBitRate
    split <;> simp_all
  · unfold proMaxBitRate
    split <;> simp_all
  · intro h
    unfold advMaxBitRate proMaxBitRate
    rw [if_neg h, if_neg h]
    exact ⟨rfl, rfl⟩

/-- Witness for `bitrateCeiling_wifi_only`: on cellular the ceilings are
present (1 Mbps and 2 Mbps). -/
theorem bitrateCeiling_wifi_only_witness :
    ("cellular" : String) ≠ "wifi" ∧ advMaxBitRate "cellular" = some 1000000 ∧
    proMaxBitRate "cellular" = some 2000000 := by
  refine ⟨by decide, ?_, ?_⟩
  · exact ((bitrateCeiling_wifi_only ⟨true, some "cellular"⟩
      ⟨"wifi", none, ⟨true, 0, 0, 1, false⟩⟩ "cellular").2.2.2.2 (by decide)).1
  · exact ((bitrateCeiling_wifi_only ⟨true, some "cellular"⟩
      ⟨"wifi", none, ⟨true, 0, 0, 1, false⟩⟩ "cellular").2.2.2.2 (by decide)).2

/-- Claim C10 (amended): in `AdvancedVideoPlayer`, `NativeVideoPlayer` and
`EnhancedVideoPlayer`, whenever the progress-milestone effect delivers a
(position, duration) pair to the host, the duration is positive — the
callback is guarded by duration > 0.  (`ProVideoPlayer`'s throttled path
has no such guard: see the counterexample.) -/
theorem progressMilestone_positive_duration (hasCallback : Bool)
    (s : AdvPlayerState) (e : EnhState) (p d : ℚ)
    (h : HostCallback.progressMilestone p d ∈ advProgressEffect hasCallback s ∨
         HostCallback.progressMilestone p d ∈ nativeProgressEffect hasCallback s ∨
         HostCallback.progressMilestone p d ∈ enhProgressEffect hasCallback e) :
    0 < d := by
  rcases h with h | h | h
  · simp only [advProgressEffect] at h
    split at h
    · rename_i hc
      simp only [List.mem_singleton, HostCallback.progressMilestone.injEq] at h
      exact h.2 ▸ hc.2
    · simp at h
  · simp only [nativeProgressEffect] at h
    split at h
    · rename_i hc
      simp only [List.mem_singleton, HostCallback.progressMilestone.injEq] at h
      exact h.2 ▸ hc.2
    · simp at h
  · simp only [enhProgressEffect] at h
    split at h
    · rename_i hc
      simp only [List.mem_singleton, HostCallback.progressMilestone.injEq] at h
      exact h.2 ▸ hc.2
    · simp at h

/-- Witness for `progressMilestone_positive_duration`: the effect fires at
position 2 ms with duration 5 ms, and 0 < 5. -/
theorem progressMilestone_positive_duration_witness :
    HostCallback.progressMilestone 2 5 ∈ advProgressEffect true ⟨true, 2, 5, 1, false⟩ ∧
    (0 : ℚ) < 5 := by
  have hm : HostCallback.progressMilestone 2 5 ∈
      advProgressEffect true ⟨true, 2, 5, 1, false⟩ := by decide
  exact ⟨hm, progressMilestone_positive_duration true ⟨true, 2, 5, 1, false⟩
    ⟨true, 0, 0, false, false, none, none⟩ 2 5 (Or.inl hm)⟩

/-- Claim C10 counterexample: `ProVideoPlayer`'s throttled progress path
invokes the host callback with no duration guard: a progress event at 3 s
arriving before the duration is known (still 0) delivers the non-positive
pair (3, 0) to the host when the throttle timer fires. -/
theorem proProgress_zero_duration_counterexample :
    (proProgressFire (proOnProgress 0 ⟨3⟩
      ⟨false, 0, 0, 0, false, true, none, 0, false, "wifi", none, none,
        none⟩)).2 = [HostCallback.progressMilestone 3 0] ∧
    ¬ ((0 : ℚ) < 0) := by
  constructor <;> decide
